import Mathlib

/-!
Verification of the navigator-auth authentication backends.

This file gives a shallow embedding of the two source files of the
repository:

* `src/navigator_auth/backends/adfs.py` — the ADFS / OIDC
  relying-party backend (`ADFSAuth.authenticate`, `ADFSAuth.auth_callback`);
* `src/navigator_auth/backends/token.py` — the tenant API-token backend
  (`TokenAuth.get_payload`, `TokenAuth.authenticate`,
  `TokenAuth.check_token_info`, `TokenAuth.auth_middleware`).

External collaborators (the `jwt` library, the aiohttp transport, the
database pool, the session store, and the methods of the base classes
`BaseAuthBackend` / `ExternalAuth` that are not part of the two source
files) are modelled as oracle parameters gathered in environment
structures.  Python exceptions are modelled as explicit result
constructors, one per `raise` site, carrying the data the corresponding
message interpolates; `try`/`except` blocks become the corresponding
case analyses.  A crucial point of fidelity: aiohttp's `web.HTTPForbidden`
is an `Exception` subclass, so a `raise web.HTTPForbidden(...)` inside a
`try` body is caught by an enclosing `except Exception` clause of the
same statement and rewrapped — the embedding reproduces this.
-/

/-! ### Section 1: URL-safe base64 (Python `base64.urlsafe_b64encode` / `..._b64decode`)

Bytes are modelled as natural numbers below 256, encoded characters as
their ASCII codes.  `61` is the code of the padding character.  The
alphabet is `A-Z a-z 0-9 - _` as used by `base64.urlsafe_b64encode`. -/

/-- ASCII code of the URL-safe base64 alphabet character for a sextet. -/
def sextetChar (i : Nat) : Nat :=
  if i < 26 then 65 + i
  else if i < 52 then 97 + (i - 26)
  else if i < 62 then 48 + (i - 52)
  else if i = 62 then 45
  else 95

/-- Sextet value of a URL-safe base64 alphabet character (ASCII code). -/
def charSextet (c : Nat) : Nat :=
  if 65 ≤ c ∧ c ≤ 90 then c - 65
  else if 97 ≤ c ∧ c ≤ 122 then 26 + (c - 97)
  else if 48 ≤ c ∧ c ≤ 57 then 52 + (c - 48)
  else if c = 45 then 62
  else if c = 95 then 63
  else 0

/-- URL-safe base64 encoding of a byte list, with `=` (code 61) padding,
as produced by Python `base64.urlsafe_b64encode`. -/
def b64encode : List Nat → List Nat
  | [] => []
  | [a] => [sextetChar (a / 4), sextetChar (a % 4 * 16), 61, 61]
  | [a, b] => [sextetChar (a / 4), sextetChar (a % 4 * 16 + b / 16),
               sextetChar (b % 16 * 4), 61]
  | a :: b :: c :: rest =>
      (sextetChar (a / 4)) :: (sextetChar (a % 4 * 16 + b / 16)) ::
      (sextetChar (b % 16 * 4 + c / 64)) :: (sextetChar (c % 64)) ::
      b64encode rest

/-- URL-safe base64 decoding (Python `base64.urlsafe_b64decode`) on
well-formed inputs: four characters at a time, with `=` padding handling. -/
def b64decode : List Nat → List Nat
  | w :: x :: y :: z :: rest =>
      if y = 61 then [charSextet w * 4 + charSextet x / 16]
      else if z = 61 then
        [charSextet w * 4 + charSextet x / 16,
         charSextet x % 16 * 16 + charSextet y / 4]
      else
        (charSextet w * 4 + charSextet x / 16) ::
        (charSextet x % 16 * 16 + charSextet y / 4) ::
        (charSextet y % 4 * 64 + charSextet z) ::
        b64decode rest
  | _ => []

theorem charSextet_sextetChar : ∀ i, i < 64 → charSextet (sextetChar i) = i := by
  decide

theorem sextetChar_ne_pad : ∀ i, i < 64 → sextetChar i ≠ 61 := by
  decide

/-- Decoding inverts encoding on byte lists. -/
theorem b64decode_b64encode (l : List Nat) (h : ∀ x ∈ l, x < 256) :
    b64decode (b64encode l) = l := by
  match l with
  | [] => rfl
  | [a] =>
      have ha : a < 256 := h a (by simp)
      have h1 : a / 4 < 64 := by omega
      have h2 : a % 4 * 16 < 64 := by omega
      have e1 := charSextet_sextetChar _ h1
      have e2 := charSextet_sextetChar _ h2
      simp [b64encode, b64decode, e1, e2]
      omega
  | [a, b] =>
      have ha : a < 256 := h a (by simp)
      have hb : b < 256 := h b (by simp)
      have h1 : a / 4 < 64 := by omega
      have h2 : a % 4 * 16 + b / 16 < 64 := by omega
      have h3 : b % 16 * 4 < 64 := by omega
      have e1 := charSextet_sextetChar _ h1
      have e2 := charSextet_sextetChar _ h2
      have e3 := charSextet_sextetChar _ h3
      simp [b64encode, b64decode, sextetChar_ne_pad _ h3, e1, e2, e3]
      omega
  | a :: b :: c :: rest =>
      have ha : a < 256 := h a (by simp)
      have hb : b < 256 := h b (by simp)
      have hc : c < 256 := h c (by simp)
      have h1 : a / 4 < 64 := by omega
      have h2 : a % 4 * 16 + b / 16 < 64 := by omega
      have h3 : b % 16 * 4 + c / 64 < 64 := by omega
      have h4 : c % 64 < 64 := by omega
      have e1 := charSextet_sextetChar _ h1
      have e2 := charSextet_sextetChar _ h2
      have e3 := charSextet_sextetChar _ h3
      have e4 := charSextet_sextetChar _ h4
      have ih : b64decode (b64encode rest) = rest :=
        b64decode_b64encode rest (fun x hx => h x (by simp [hx]))
      simp [b64encode, b64decode, sextetChar_ne_pad _ h3, sextetChar_ne_pad _ h4,
            e1, e2, e3, e4, ih]
      omega

/-! ### Section 2: the ADFS authorize URL (`ADFSAuth.authenticate`, adfs.py:115-148)

`ADFSAuth.authenticate` builds the query-parameter dictionary

    \x7b "client_id": ADFS_CLIENT_ID, "response_type": "code",
      "redirect_uri": self.redirect_uri, "resource": ADFS_DEFAULT_RESOURCE,
      "response_mode": "query",
      "state": base64.urlsafe_b64encode(self.redirect_uri.encode()).decode(),
      "scope": ADFS_SCOPES \x7d

and urlencodes it onto `self.authorize_uri`.  We model the dictionary as
an association list.  Parameter values are either configured strings or
raw byte strings (the redirect URI and its base64-encoded form). -/

/-- Value of one authorize-URL query parameter. -/
inductive ParamVal where
  | str (s : String)
  | raw (bytes : List Nat)
deriving DecidableEq

/-- Configuration consumed by `ADFSAuth.authenticate`
(`ADFS_CLIENT_ID`, `ADFS_DEFAULT_RESOURCE`, `ADFS_SCOPES`). -/
structure AdfsConfig where
  client_id : String
  resource : String
  scopes : String
deriving DecidableEq

/-- The query-parameter dictionary built by `ADFSAuth.authenticate`
(adfs.py:128-137).  `redirect_uri` is the byte string of
`self.redirect_uri` after domain formatting. -/
def adfs_authorize_query (cfg : AdfsConfig) (redirect_uri : List Nat) :
    List (String × ParamVal) :=
  [("client_id", ParamVal.str cfg.client_id),
   ("response_type", ParamVal.str "code"),
   ("redirect_uri", ParamVal.raw redirect_uri),
   ("resource", ParamVal.str cfg.resource),
   ("response_mode", ParamVal.str "query"),
   ("state", ParamVal.raw (b64encode redirect_uri)),
   ("scope", ParamVal.str cfg.scopes)]

/-- C1: for every configuration and request, the authorize URL built by
`ADFSAuth.authenticate` contains the query parameters `client_id`,
`redirect_uri`, `response_type=code`, and a `state` parameter whose
URL-safe base64 decoding equals the configured redirect target. -/
theorem adfs_authorize_query_c1 (cfg : AdfsConfig) (redirect_uri : List Nat)
    (h : ∀ b ∈ redirect_uri, b < 256) :
    ("client_id", ParamVal.str cfg.client_id) ∈ adfs_authorize_query cfg redirect_uri ∧
    ("response_type", ParamVal.str "code") ∈ adfs_authorize_query cfg redirect_uri ∧
    ("redirect_uri", ParamVal.raw redirect_uri) ∈ adfs_authorize_query cfg redirect_uri ∧
    ∃ st, ("state", ParamVal.raw st) ∈ adfs_authorize_query cfg redirect_uri ∧
      b64decode st = redirect_uri := by
  refine ⟨by simp [adfs_authorize_query], by simp [adfs_authorize_query],
    by simp [adfs_authorize_query], b64encode redirect_uri,
    by simp [adfs_authorize_query], b64decode_b64encode redirect_uri h⟩

/-- Witness for C1 at a concrete configuration and redirect target
(the bytes of the string "https://x/cb"). -/
theorem adfs_authorize_query_c1_witness :
    (∀ b ∈ [104, 116, 116, 112, 115, 58, 47, 47, 120, 47, 99, 98], b < 256) ∧
    (("client_id", ParamVal.str "client-1") ∈
      adfs_authorize_query ⟨"client-1", "res", "openid"⟩
        [104, 116, 116, 112, 115, 58, 47, 47, 120, 47, 99, 98] ∧
     ("response_type", ParamVal.str "code") ∈
      adfs_authorize_query ⟨"client-1", "res", "openid"⟩
        [104, 116, 116, 112, 115, 58, 47, 47, 120, 47, 99, 98] ∧
     ("redirect_uri", ParamVal.raw [104, 116, 116, 112, 115, 58, 47, 47, 120, 47, 99, 98]) ∈
      adfs_authorize_query ⟨"client-1", "res", "openid"⟩
        [104, 116, 116, 112, 115, 58, 47, 47, 120, 47, 99, 98] ∧
     ∃ st, ("state", ParamVal.raw st) ∈
        adfs_authorize_query ⟨"client-1", "res", "openid"⟩
          [104, 116, 116, 112, 115, 58, 47, 47, 120, 47, 99, 98] ∧
        b64decode st = [104, 116, 116, 112, 115, 58, 47, 47, 120, 47, 99, 98]) :=
  ⟨by decide, adfs_authorize_query_c1 ⟨"client-1", "res", "openid"⟩
    [104, 116, 116, 112, 115, 58, 47, 47, 120, 47, 99, 98] (by decide)⟩

/-! ### Section 3: Python string helpers used by `TokenAuth.get_payload` (token.py:41-68)

The header value manipulation in `get_payload` is
`request.headers.get("Authorization").strip().split(" ", 1)` followed by
`id.split(":")`.  We model these Python operations on `List Char`. -/

/-- Python `str.strip()` (leading and trailing whitespace removed). -/
def pyStrip (l : List Char) : List Char :=
  (((l.dropWhile Char.isWhitespace).reverse.dropWhile Char.isWhitespace).reverse)

/-- Python `s.split(" ", 1)` restricted to the case where a space occurs:
returns the part before the first space and the remainder.  `none` models
the single-element result (no space), which makes the two-target unpacking
in the source raise `ValueError`. -/
def splitFirstSpace : List Char → Option (List Char × List Char)
  | [] => none
  | c :: cs =>
      if c = ' ' then some ([], cs)
      else (splitFirstSpace cs).map (fun p => (c :: p.1, p.2))

/-- Python `s.split(":")`: split on every colon; never returns `[]`. -/
def pySplitColon : List Char → List (List Char)
  | [] => [[]]
  | c :: cs =>
      if c = ':' then [] :: pySplitColon cs
      else
        match pySplitColon cs with
        | [] => [[c]]
        | h :: t => (c :: h) :: t

/-- `TokenAuth.get_payload` (token.py:41-68).  Returns `none` when the
method returns Python `None` (any exception in the body is caught and
logged, token.py:65-67); otherwise `some (tenant, token)` for the
returned `[tenant, token]` list.  With no `Authorization` header the
method returns `[None, None]`.  A header without a space, or with a
scheme different from the configured one, raises `AuthException`, which
the outer handler turns into `None`.  The credential is split with
`id.split(":")`; only a result of exactly two parts binds
`tenant, token`; any other shape raises `ValueError` and the whole
credential becomes the token (token.py:61-64). -/
def get_payload (headers : List (String × String)) (scheme : String) :
    Option (Option String × Option String) :=
  match headers.lookup "Authorization" with
  | none => some (none, none)
  | some v =>
      match splitFirstSpace (pyStrip v.data) with
      | none => none
      | some (sch, cred) =>
          if String.mk sch = scheme then
            match pySplitColon cred with
            | [t, tok] => some (some (String.mk t), some (String.mk tok))
            | _ => some (none, some (String.mk cred))
          else none

/-! Helper lemmas about the Python string operations. -/

theorem dropWhile_eq_self_of_head (p : Char → Bool) (l : List Char)
    (h : ∀ c, l.head? = some c → p c = false) : l.dropWhile p = l := by
  cases l with
  | nil => rfl
  | cons a as => simp [List.dropWhile_cons, h a rfl]

theorem pyStrip_eq_self (l : List Char)
    (h1 : ∀ c, l.head? = some c → c.isWhitespace = false)
    (h2 : ∀ c, l.reverse.head? = some c → c.isWhitespace = false) :
    pyStrip l = l := by
  unfold pyStrip
  rw [dropWhile_eq_self_of_head _ l h1, dropWhile_eq_self_of_head _ l.reverse h2,
      List.reverse_reverse]

theorem head?_append_left (l1 l2 : List Char) (h : l1 ≠ []) :
    (l1 ++ l2).head? = l1.head? := by
  cases l1 with
  | nil => exact absurd rfl h
  | cons a as => rfl

theorem head_reverse_append (l1 l2 : List Char) (h : l2 ≠ []) :
    (l1 ++ l2).reverse.head? = l2.reverse.head? := by
  rw [List.reverse_append]
  exact head?_append_left _ _ (by simp [h])

theorem head?_mem (l : List Char) (c : Char) (h : l.head? = some c) : c ∈ l := by
  cases l with
  | nil => simp at h
  | cons a as => simp at h; simp [h]

theorem splitFirstSpace_append (s rest : List Char) (h : ∀ c ∈ s, c ≠ ' ') :
    splitFirstSpace (s ++ ' ' :: rest) = some (s, rest) := by
  induction s with
  | nil => simp [splitFirstSpace]
  | cons a as ih =>
      have ha : a ≠ ' ' := h a (by simp)
      simp only [List.cons_append, splitFirstSpace, if_neg ha, List.append_eq]
      rw [ih (fun c hc => h c (by simp [hc]))]
      rfl

theorem pySplitColon_ne_nil (l : List Char) : pySplitColon l ≠ [] := by
  induction l with
  | nil => simp [pySplitColon]
  | cons c cs ih =>
      by_cases hc : c = ':'
      · simp [pySplitColon, hc]
      · simp only [pySplitColon, if_neg hc]
        cases he : pySplitColon cs with
        | nil => exact absurd he ih
        | cons h t => simp

theorem pySplitColon_no_colon (l : List Char) (h : ∀ c ∈ l, c ≠ ':') :
    pySplitColon l = [l] := by
  induction l with
  | nil => rfl
  | cons c cs ih =>
      have hc : c ≠ ':' := h c (by simp)
      simp only [pySplitColon, if_neg hc]
      rw [ih (fun x hx => h x (by simp [hx]))]

theorem pySplitColon_append (t rest : List Char) (h : ∀ c ∈ t, c ≠ ':') :
    pySplitColon (t ++ ':' :: rest) = t :: pySplitColon rest := by
  induction t with
  | nil => simp [pySplitColon]
  | cons c cs ih =>
      have hc : c ≠ ':' := h c (by simp)
      simp only [List.cons_append, pySplitColon, if_neg hc, List.append_eq]
      rw [ih (fun x hx => h x (by simp [hx]))]

theorem pySplitColon_pieces (l : List Char) :
    ∀ p ∈ pySplitColon l, ∀ c ∈ p, c ≠ ':' := by
  induction l with
  | nil => intro p hp c hc; simp [pySplitColon] at hp; simp [hp] at hc
  | cons a as ih =>
      intro p hp c hc
      by_cases ha : a = ':'
      · simp only [pySplitColon, if_pos ha] at hp
        rcases List.mem_cons.mp hp with h1 | h2
        · simp [h1] at hc
        · exact ih p h2 c hc
      · simp only [pySplitColon, if_neg ha] at hp
        cases he : pySplitColon as with
        | nil => exact absurd he (pySplitColon_ne_nil as)
        | cons hd tl =>
            rw [he] at hp
            rcases List.mem_cons.mp hp with h1 | h2
            · subst h1
              rcases List.mem_cons.mp hc with h3 | h4
              · simp [h3]; exact ha
              · exact ih hd (by simp [he]) c h4
            · exact ih p (by simp [he, h2]) c hc

theorem string_mk_data (s : String) : String.mk s.data = s := by
  cases s; rfl

theorem string_data_ne_nil (s : String) (h : s ≠ "") : s.data ≠ [] := by
  intro hd
  apply h
  have : String.mk s.data = String.mk [] := by rw [hd]
  rwa [string_mk_data] at this

/-! ### Section 4: the tenant token backend (`TokenAuth`, token.py)

The decoded JWT payload and the user dictionaries are Python dicts whose
values are strings, lists of strings, or `None`; we model them as
association lists over `PVal`.  The database query of
`check_token_info` (token.py:154-158) selects
`name, partner, grants, programs FROM auth.partner_keys WHERE name=$1
AND partner=$2 AND enabled = TRUE AND revoked = FALSE AND
$3 = ANY(programs)`; the store is modelled as a list of rows and the
query as `List.find?` of the WHERE predicate (`$3 = ANY(programs)` is
never satisfied by a SQL NULL, i.e. by a `none` tenant).  A `none`
database models a connection/query error (the `except` at
token.py:169-171 returns `False`). -/

/-- Python dict value: string, list of strings, or `None`. -/
inductive PVal where
  | s (v : String)
  | l (v : List String)
  | pynone
deriving DecidableEq

/-- A Python dict with string keys. -/
abbrev Payload := List (String × PVal)

/-- A row of `auth.partner_keys` as consumed by `check_token_info`. -/
structure ApiKeyRecord where
  name : String
  partner : String
  grants : List String
  programs : List String
  enabled : Bool
  revoked : Bool
deriving DecidableEq

/-- String value of a payload key, `none` when missing or not a string. -/
def pStr (p : Payload) (k : String) : Option String :=
  match p.lookup k with
  | some (PVal.s v) => some v
  | _ => none

/-- Python `f"\x7btenant\x7d"` on an optional string. -/
def pyStr : Option String → String
  | some s => s
  | none => "None"

/-- SQL `$3 = ANY(programs)` with `$3` the (possibly NULL) tenant. -/
def tenantMatch : Option String → List String → Bool
  | some t, progs => progs.contains t
  | none, _ => false

/-- The WHERE predicate of the `auth.partner_keys` query (token.py:154-158). -/
def keyPred (n pa : String) (tenant : Option String) (r : ApiKeyRecord) : Bool :=
  r.name == n && r.partner == pa && r.enabled && !r.revoked &&
    tenantMatch tenant r.programs

/-- `TokenAuth.check_token_info` (token.py:148-171): read `name` and
`partner` from the decoded payload (`KeyError` returns `False`), then
query the key store; `none` is Python `False` (no row, query error, or
missing payload attributes — deliberately not distinguished). -/
def check_token_info (db : Option (List ApiKeyRecord)) (tenant : Option String)
    (payload : Payload) : Option ApiKeyRecord :=
  match pStr payload "name", pStr payload "partner" with
  | some n, some pa =>
      match db with
      | some rows => rows.find? (keyPred n pa tenant)
      | none => none
  | _, _ => none

/-- Modelled from the spec: `AUTH_TOKEN_ISSUER`, an external
configuration constant (token issuer name) imported from
`navigator_auth.conf`, which is not under the two source files.  Its
value is irrelevant to every claim. -/
def AUTH_TOKEN_ISSUER : String := "Navigator"

/-- The `user` dictionary built by `TokenAuth.authenticate`
(token.py:114-123) from the database row, the request tenant and the
configured issuer. -/
def mkUser (r : ApiKeyRecord) (tenant : Option String) : Payload :=
  [("name", PVal.s r.name),
   ("partner", PVal.s r.partner),
   ("issuer", PVal.s AUTH_TOKEN_ISSUER),
   ("programs", PVal.l r.programs),
   ("grants", PVal.l r.grants),
   ("tenant", match tenant with | some t => PVal.s t | none => PVal.pynone),
   ("id", PVal.s r.name),
   ("user_id", PVal.s r.name)]

/-- The row of `auth.partner_keys` as a Python dict (`dict(data)`,
token.py:112). -/
def rowPayload (r : ApiKeyRecord) : Payload :=
  [("name", PVal.s r.name),
   ("partner", PVal.s r.partner),
   ("grants", PVal.l r.grants),
   ("programs", PVal.l r.programs)]

/-- Python dict item assignment `d[k] = v` on an association list with
unique keys: replace the binding if present, else append. -/
def dictSet : Payload → String → PVal → Payload
  | [], k, v => [(k, v)]
  | (k1, v1) :: rest, k, v =>
      if k1 = k then (k, v) :: rest else (k1, v1) :: dictSet rest k v

/-- The `userdata` dictionary of `TokenAuth.authenticate`
(token.py:112-124): a copy of the database row with
`userdata[self.session_key_property] = id`. -/
def mkUserdata (skp : String) (r : ApiKeyRecord) : Payload :=
  dictSet (rowPayload r) skp (PVal.s r.name)

/-- Failure kinds of `jwt.decode` (PyJWT), carrying the exception
message: `ExpiredSignatureError`, `InvalidSignatureError`,
`DecodeError`/`InvalidTokenError`, or any other exception. -/
inductive JwtErr where
  | expired (msg : String)
  | invalidSig (msg : String)
  | badToken (msg : String)
  | otherErr (msg : String)
deriving DecidableEq

/-- Collaborator environment of the token backend.  `jwtDecode` models
`jwt.decode(token, AUTH_TOKEN_SECRET, algorithms=[AUTH_JWT_ALGORITHM],
leeway=30)` (PyJWT with the shared secret — an external library).
`createJwt` models `BaseAuthBackend.create_jwt` and `sessionStepFails`
models whether the `create_user`/`remember` collaborator steps raise;
these base-class methods are not in the two source files.
Modelled from the spec: `create_jwt` issues a fresh signed JWT embedding
the identity dictionary, and `create_user`/`remember` build the identity
object and persist it into a session, possibly failing; both are
deterministic in their dictionary argument. -/
structure TokenEnv where
  scheme : String
  jwtDecode : String → Except JwtErr Payload
  createJwt : Payload → String
  sessionStepFails : Payload → Bool
  session_key_property : String
  db : Option (List ApiKeyRecord)

/-- Result of `TokenAuth.authenticate`, one constructor per exit path:
`authException` = the `raise AuthException(err, status=400)` at
token.py:80 (reached when unpacking the `None` from `get_payload`
raises `TypeError`); `invalidCreds` = `InvalidAuth("Invalid
Credentials", status=401)` at token.py:84; `invalidSession` =
`InvalidAuth(f"Invalid Session: \x7btoken\x7d", status=401)` at
token.py:94 (carrying the token the message interpolates); `jwtFault` =
an exception of `jwt.decode` at token.py:88, which no handler in
`authenticate` catches; `falseResult` = `return False` at token.py:143;
`success` = the dict `\x7b"token": f"\x7btenant\x7d:\x7btoken\x7d",
**user\x7d` returned at token.py:137-140, instrumented with the
database row the authentication used. -/
inductive AuthResult where
  | authException (status : Nat)
  | invalidCreds (status : Nat)
  | invalidSession (token : String) (status : Nat)
  | jwtFault (e : JwtErr)
  | falseResult
  | success (token : String) (user : Payload) (record : ApiKeyRecord)
deriving DecidableEq

/-- `TokenAuth.authenticate` (token.py:74-143). -/
def authenticate (env : TokenEnv) (headers : List (String × String)) : AuthResult :=
  match get_payload headers env.scheme with
  | none => AuthResult.authException 400
  | some (tenant, token) =>
      match token with
      | none => AuthResult.invalidCreds 401
      | some tk =>
          if tk = "" then AuthResult.invalidCreds 401
          else
            match env.jwtDecode tk with
            | Except.error e => AuthResult.jwtFault e
            | Except.ok payload =>
                match check_token_info env.db tenant payload with
                | none => AuthResult.invalidSession tk 401
                | some r =>
                    let user := mkUser r tenant
                    let userdata := mkUserdata env.session_key_property r
                    if env.sessionStepFails userdata then AuthResult.falseResult
                    else AuthResult.success
                      (pyStr tenant ++ ":" ++ env.createJwt user) user r

/-- The tenant extracted from a request by `get_payload`, as consumed by
`authenticate` (the first element of the returned pair). -/
def requestTenant (env : TokenEnv) (headers : List (String × String)) :
    Option String :=
  match get_payload headers env.scheme with
  | some (t, _) => t
  | none => none

/-! ### Section 5: the token middleware (`TokenAuth.auth_middleware`, token.py:173-232)

The aiohttp request carries headers, a mapping storage (only the
`authenticated` flag and the session-key entry are touched by this code)
and the `user` attribute.  `get_session` and the session object are
external collaborators (`navigator_session`), modelled by an oracle
returning the session's `user` entry (`session.decode('user')` raising
`KeyError` is the `none` case, token.py:202-207). -/

/-- The user object a session may carry; `is_auth` models the
`is_authenticated` attribute set at token.py:205. -/
structure SessUser where
  uid : String
  is_auth : Bool
deriving DecidableEq

/-- The slice of the aiohttp request this middleware reads and writes. -/
structure Request where
  headers : List (String × String)
  authenticatedFlag : Bool
  sessionKeyVal : Option String
  user : Option SessUser
deriving DecidableEq

/-- A session as returned by `get_session`:  only its `user` entry is
read by the middleware. -/
structure MwSession where
  sessUser : Option SessUser
deriving DecidableEq

/-- Exceptions reaching the catch-all `except Exception` at
token.py:225-229: the `web.HTTPForbidden(reason="API Key Not
Authorized")` raised at token.py:192 inside the same `try` (aiohttp
HTTP exceptions are `Exception` subclasses, so the catch-all swallows
it), or any collaborator exception (e.g. from `get_session`). -/
inductive MwExc where
  | notAuthorized
  | otherExc (msg : String)
deriving DecidableEq

/-- Result of one middleware invocation, one constructor per exit path:
`handled req` = `return await handler(request)` with the request in
state `req`; the three `forbidden…` constructors are the
`web.HTTPForbidden` raises at token.py:212, 217 and 222 for the three
caught `jwt` exception classes; `clientError` = the
`web.HTTPClientError` raised at token.py:227 wrapping whatever the
catch-all caught; `typeErrorUnpackNone` = the uncaught `TypeError`
raised at token.py:183 when `get_payload` returns `None` and the
middleware unpacks it (`tenant, jwt_token = await self.get_payload(request)`
outside any `try`). -/
inductive MwOutcome where
  | handled (req : Request)
  | forbiddenExpired (msg : String)
  | forbiddenInvalidSig (msg : String)
  | forbiddenInvalidToken (msg : String)
  | clientError (inner : MwExc)
  | typeErrorUnpackNone
deriving DecidableEq

/-- Collaborator environment of the middleware. `getSession` models
`get_session(request, payload, new=True)` from `navigator_session`
(an external package), failing with a message on error. -/
structure MwEnv where
  scheme : String
  jwtDecode : String → Except JwtErr Payload
  db : Option (List ApiKeyRecord)
  getSession : Payload → Except String MwSession

/-- `TokenAuth.auth_middleware` (token.py:173-232), the inner
`middleware(request)` coroutine.  Source order is preserved:
`request.user = None` (line 176) runs before the already-authenticated
pass-through check (lines 178-180). -/
def auth_middleware (env : MwEnv) (req0 : Request) : MwOutcome :=
  let req1 : Request := { req0 with user := none }
  if req1.authenticatedFlag then MwOutcome.handled req1
  else
    match get_payload req1.headers env.scheme with
    | none => MwOutcome.typeErrorUnpackNone
    | some (tenant, token) =>
        match token with
        | none => MwOutcome.handled req1
        | some tk =>
            if tk = "" then MwOutcome.handled req1
            else
              match env.jwtDecode tk with
              | Except.error (JwtErr.expired m) => MwOutcome.forbiddenExpired m
              | Except.error (JwtErr.invalidSig m) => MwOutcome.forbiddenInvalidSig m
              | Except.error (JwtErr.badToken m) => MwOutcome.forbiddenInvalidToken m
              | Except.error (JwtErr.otherErr m) => MwOutcome.clientError (MwExc.otherExc m)
              | Except.ok payload =>
                  match check_token_info env.db tenant payload with
                  | none => MwOutcome.clientError MwExc.notAuthorized
                  | some _r =>
                      match pStr payload "name" with
                      | none => MwOutcome.clientError (MwExc.otherExc "KeyError")
                      | some nm =>
                          let req2 : Request := { req1 with sessionKeyVal := some nm }
                          match env.getSession payload with
                          | Except.error m => MwOutcome.clientError (MwExc.otherExc m)
                          | Except.ok sess =>
                              let req3 : Request :=
                                match sess.sessUser with
                                | some u => { req2 with user := some { u with is_auth := true } }
                                | none => req2
                              MwOutcome.handled { req3 with authenticatedFlag := true }

/-! ### Section 6: the ADFS callback (`ADFSAuth.auth_callback`, adfs.py:150-273)

Every `raise web.HTTPForbidden(...)` site becomes a constructor
carrying the data its reason message interpolates.  aiohttp HTTP
exceptions are `Exception` subclasses, so the raises at adfs.py:161 and
adfs.py:198, both inside `try` bodies whose `except Exception` clauses
re-raise a fresh `HTTPForbidden`, never escape: the callback instead
terminates through the wrapping raises at adfs.py:170 and adfs.py:208.
The constructors for the inner raises escaping are retained in the
outcome type so that the corresponding spec claims can be stated. -/

/-- Exceptions raised inside the first `try` of `auth_callback`
(adfs.py:155-168): the provider-denial `HTTPForbidden`
(reason `"ADFS: Unable to Authenticate: \x7bauth_response!r\x7d"`,
adfs.py:161), or the `KeyError` of the missing `code` key
(adfs.py:164). -/
inductive CbInnerExc where
  | providerDenied (resp : List (String × String))
  | missingCode
deriving DecidableEq

/-- Exceptions raised inside the token-exchange `try`
(adfs.py:189-206): the exchange-rejection `HTTPForbidden`
(reason `"ADFS \x7berror\x7d: \x7bdesc\x7d¡"`, adfs.py:198), a
transport-level exception of `self.post`, or the `KeyError` of a
missing response field (adfs.py:201-202). -/
inductive ExchangeExc where
  | exchangeRejected (error desc : String)
  | transport (msg : String)
  | missingField (key : String)
deriving DecidableEq

/-- Terminal outcome of `auth_callback`, one constructor per exit:
`forbiddenProviderDenied` would be the raise at adfs.py:161 escaping
(the code never lets it escape; kept so claims about it can be
stated); `forbiddenInvalidCallback` = the raise at adfs.py:170 wrapping
the caught inner exception; `forbiddenTokenExchangeRejected` would be
the raise at adfs.py:198 escaping (never escapes);
`forbiddenTokenServer` = the raise at adfs.py:208 wrapping the caught
exchange exception; `forbiddenBadJwt` = adfs.py:241;
`forbiddenUserInfo` = adfs.py:263; `homeRedirect` = the
`home_redirect` return at adfs.py:271 with the session token (or
`none`, adfs.py:267-270). -/
inductive CallbackOutcome where
  | forbiddenProviderDenied (resp : List (String × String))
  | forbiddenInvalidCallback (inner : CbInnerExc) (resp : List (String × String))
  | forbiddenTokenExchangeRejected (error desc : String)
  | forbiddenTokenServer (inner : ExchangeExc)
  | forbiddenBadJwt (msg : String)
  | forbiddenUserInfo (msg : String)
  | homeRedirect (token : Option String)
deriving DecidableEq

/-- One full run of `auth_callback`: its outcome, whether the
token-exchange POST (`self.post`, adfs.py:190) was awaited, and whether
an Identity was constructed (`validate_user_info`, adfs.py:258,
succeeded). -/
structure CbRun where
  outcome : CallbackOutcome
  posted : Bool
  identityBuilt : Bool
deriving DecidableEq

/-- Collaborator environment of the callback: `post` is the token
endpoint call (`ExternalAuth.post`; `Except.error` a transport-level
exception), `jwtVerify` is `get_public_key` plus `jwt.decode` of the
access token (adfs.py:225-238), `buildValidate` is the userinfo fetch,
`build_user_info` and `validate_user_info` step (adfs.py:244-260),
returning the `token` entry of the validated data (`none` when absent,
adfs.py:266-270). -/
structure CallbackEnv where
  post : Except String (List (String × String))
  jwtVerify : String → Except String Unit
  buildValidate : String → String → Except String (Option String)

/-- The first `try` of `auth_callback` (adfs.py:155-168): check for an
`error` query parameter, then extract the authorization `code`. -/
def callbackStage1 (q : List (String × String)) : Except CbInnerExc String :=
  if (q.lookup "error").isSome then Except.error (CbInnerExc.providerDenied q)
  else
    match q.lookup "code" with
    | some c => Except.ok c
    | none => Except.error CbInnerExc.missingCode

/-- `ADFSAuth.auth_callback` (adfs.py:150-273) on a request whose query
dictionary is `q`. -/
def auth_callback (env : CallbackEnv) (q : List (String × String)) : CbRun :=
  match callbackStage1 q with
  | Except.error e =>
      { outcome := CallbackOutcome.forbiddenInvalidCallback e q,
        posted := false, identityBuilt := false }
  | Except.ok _code =>
      match env.post with
      | Except.error m =>
          { outcome := CallbackOutcome.forbiddenTokenServer (ExchangeExc.transport m),
            posted := true, identityBuilt := false }
      | Except.ok exchange =>
          match exchange.lookup "error" with
          | some e =>
              { outcome := CallbackOutcome.forbiddenTokenServer
                  (ExchangeExc.exchangeRejected e (pyStr (exchange.lookup "error_description"))),
                posted := true, identityBuilt := false }
          | none =>
              match exchange.lookup "access_token" with
              | none =>
                  { outcome := CallbackOutcome.forbiddenTokenServer
                      (ExchangeExc.missingField "access_token"),
                    posted := true, identityBuilt := false }
              | some accessToken =>
                  match exchange.lookup "token_type" with
                  | none =>
                      { outcome := CallbackOutcome.forbiddenTokenServer
                          (ExchangeExc.missingField "token_type"),
                        posted := true, identityBuilt := false }
                  | some tokenType =>
                      match env.jwtVerify accessToken with
                      | Except.error m =>
                          { outcome := CallbackOutcome.forbiddenBadJwt m,
                            posted := true, identityBuilt := false }
                      | Except.ok _ =>
                          match env.buildValidate accessToken tokenType with
                          | Except.error m =>
                              { outcome := CallbackOutcome.forbiddenUserInfo m,
                                posted := true, identityBuilt := false }
                          | Except.ok tokenOpt =>
                              { outcome := CallbackOutcome.homeRedirect tokenOpt,
                                posted := true, identityBuilt := true }

/-! ### Section 7: claims about the ADFS callback (C2, C3) -/

/-- C2: for every callback request whose query parameters contain an
`error` key, `auth_callback` never performs the token-exchange POST and
the request is rejected with the provider-denied failure: the forbidden
rejection wrapping `CbInnerExc.providerDenied q`, whose reason
interpolates the provider's error response.  (The `HTTPForbidden` raised
at adfs.py:161 is caught by the `except Exception` at adfs.py:169 and
rewrapped by the raise at adfs.py:170, so the terminal forbidden is the
wrapper, still carrying the provider's denial.) -/
theorem adfs_callback_error_rejected_c2 (env : CallbackEnv)
    (q : List (String × String)) (h : (q.lookup "error").isSome = true) :
    auth_callback env q =
      { outcome := CallbackOutcome.forbiddenInvalidCallback
          (CbInnerExc.providerDenied q) q,
        posted := false, identityBuilt := false } := by
  have h1 : callbackStage1 q = Except.error (CbInnerExc.providerDenied q) := by
    unfold callbackStage1
    rw [if_pos h]
  simp [auth_callback, h1]

/-- Concrete environment for callback witnesses. -/
def cbEnv0 : CallbackEnv :=
  { post := Except.ok [("access_token", "AT"), ("token_type", "Bearer")],
    jwtVerify := fun _ => Except.ok (),
    buildValidate := fun _ _ => Except.ok (some "SESSTOK") }

/-- Witness for C2 at a concrete denial callback. -/
theorem adfs_callback_error_rejected_c2_witness :
    ((([("error", "access_denied")] : List (String × String)).lookup "error").isSome = true) ∧
    auth_callback cbEnv0 [("error", "access_denied")] =
      { outcome := CallbackOutcome.forbiddenInvalidCallback
          (CbInnerExc.providerDenied [("error", "access_denied")])
          [("error", "access_denied")],
        posted := false, identityBuilt := false } :=
  ⟨by decide, adfs_callback_error_rejected_c2 cbEnv0 [("error", "access_denied")] (by decide)⟩

/-- C3: for every callback carrying a `code` whose token-exchange
response contains an `error` field, `auth_callback` rejects the request
with the token-exchange-rejection failure — the forbidden wrapping
`ExchangeExc.exchangeRejected` (the `HTTPForbidden` raised at
adfs.py:198 is caught by the `except Exception` at adfs.py:207 and
rewrapped by the raise at adfs.py:208) — and no Identity is ever
constructed; a transport-level failure of the exchange instead yields
the distinct upstream-unavailable failure, the same wrapper around
`ExchangeExc.transport`. -/
theorem adfs_exchange_error_c3 (envE envT : CallbackEnv)
    (q : List (String × String)) (c : String)
    (ex : List (String × String)) (e m : String)
    (hq : callbackStage1 q = Except.ok c)
    (hE : envE.post = Except.ok ex)
    (hex : ex.lookup "error" = some e)
    (hT : envT.post = Except.error m) :
    auth_callback envE q =
      { outcome := CallbackOutcome.forbiddenTokenServer
          (ExchangeExc.exchangeRejected e (pyStr (ex.lookup "error_description"))),
        posted := true, identityBuilt := false } ∧
    auth_callback envT q =
      { outcome := CallbackOutcome.forbiddenTokenServer (ExchangeExc.transport m),
        posted := true, identityBuilt := false } := by
  constructor
  · simp [auth_callback, hq, hE, hex]
  · simp [auth_callback, hq, hT]

/-- Concrete environment whose token exchange answers with an `error`. -/
def cbEnvExch : CallbackEnv :=
  { post := Except.ok [("error", "invalid_grant"), ("error_description", "expired code")],
    jwtVerify := fun _ => Except.ok (),
    buildValidate := fun _ _ => Except.ok (some "SESSTOK") }

/-- Concrete environment whose token exchange fails at transport level. -/
def cbEnvTrans : CallbackEnv :=
  { post := Except.error "connection timeout",
    jwtVerify := fun _ => Except.ok (),
    buildValidate := fun _ _ => Except.ok (some "SESSTOK") }

/-- Witness for C3 at a concrete code callback, for both an
error-bearing exchange response and a transport failure. -/
theorem adfs_exchange_error_c3_witness :
    callbackStage1 [("code", "abc")] = Except.ok "abc" ∧
    cbEnvExch.post = Except.ok
      [("error", "invalid_grant"), ("error_description", "expired code")] ∧
    (([("error", "invalid_grant"), ("error_description", "expired code")] :
        List (String × String)).lookup "error") = some "invalid_grant" ∧
    cbEnvTrans.post = Except.error "connection timeout" ∧
    (auth_callback cbEnvExch [("code", "abc")] =
      { outcome := CallbackOutcome.forbiddenTokenServer
          (ExchangeExc.exchangeRejected "invalid_grant"
            (pyStr (([("error", "invalid_grant"), ("error_description", "expired code")] :
              List (String × String)).lookup "error_description"))),
        posted := true, identityBuilt := false } ∧
    auth_callback cbEnvTrans [("code", "abc")] =
      { outcome := CallbackOutcome.forbiddenTokenServer
          (ExchangeExc.transport "connection timeout"),
        posted := true, identityBuilt := false }) :=
  ⟨rfl, rfl, by decide, rfl,
   adfs_exchange_error_c3 cbEnvExch cbEnvTrans [("code", "abc")] "abc"
     [("error", "invalid_grant"), ("error_description", "expired code")]
     "invalid_grant" "connection timeout" rfl rfl (by decide) rfl⟩

/-! ### Section 8: claims about the token middleware (C4, C9) -/

/-- Concrete middleware environment. -/
def mwEnv0 : MwEnv :=
  { scheme := "Bearer",
    jwtDecode := fun _ => Except.error (JwtErr.badToken "bad segments"),
    db := some [],
    getSession := fun _ => Except.error "no session" }

/-- C4 (failing input): a request whose `Authorization` header has no
space (`"garbage"`), and one with a wrong scheme (`"Basic dXNlcg"`),
make `get_payload` return `None` (token.py:65-67); the middleware
unpacks that `None` at token.py:183 outside any handler, so a
`TypeError` escapes as a non-HTTP fault instead of a rejection response
or a handler invocation. -/
theorem token_middleware_nonhttp_fault_c4 :
    auth_middleware mwEnv0
      { headers := [("Authorization", "garbage")],
        authenticatedFlag := false, sessionKeyVal := none, user := none } =
      MwOutcome.typeErrorUnpackNone ∧
    auth_middleware mwEnv0
      { headers := [("Authorization", "Basic dXNlcg")],
        authenticatedFlag := false, sessionKeyVal := none, user := none } =
      MwOutcome.typeErrorUnpackNone := by
  constructor <;> decide

/-- A request already flagged authenticated by an earlier interceptor,
with an attached user object. -/
def req9 : Request :=
  { headers := [("Authorization", "Bearer t:x")],
    authenticatedFlag := true, sessionKeyVal := none,
    user := some { uid := "prior-user", is_auth := true } }

/-- C9 counterexample: at `req9` the middleware does invoke the
downstream handler, but with `request.user` reset to `None`
(token.py:176 runs before the pass-through check at token.py:178), so
the request is not unchanged. -/
theorem token_middleware_passthrough_c9_cx :
    auth_middleware mwEnv0 req9 =
      MwOutcome.handled
        { headers := [("Authorization", "Bearer t:x")],
          authenticatedFlag := true, sessionKeyVal := none, user := none } ∧
    auth_middleware mwEnv0 req9 ≠ MwOutcome.handled req9 := by
  constructor <;> decide

/-- C9 as amended: for every request already flagged authenticated, the
middleware invokes the downstream handler without any authentication
work, with every request field unchanged except `user`, which is reset
to `None` first (token.py:176). -/
theorem token_middleware_passthrough_c9 (env : MwEnv) (req : Request)
    (h : req.authenticatedFlag = true) :
    auth_middleware env req = MwOutcome.handled { req with user := none } := by
  unfold auth_middleware
  simp [h]

/-- Witness for the amended C9 at `req9`. -/
theorem token_middleware_passthrough_c9_witness :
    req9.authenticatedFlag = true ∧
    auth_middleware mwEnv0 req9 = MwOutcome.handled { req9 with user := none } :=
  ⟨rfl, token_middleware_passthrough_c9 mwEnv0 req9 rfl⟩

/-! ### Section 9: `get_payload` parsing claims (C5) -/

theorem reverse_head_append_cons (pre : List Char) (c : Char) (mid : List Char) :
    (pre ++ c :: mid).reverse.head? = (c :: mid).reverse.head? :=
  head_reverse_append pre (c :: mid) (by simp)

theorem reverse_head_cons (c : Char) (mid : List Char) (h : mid ≠ []) :
    (c :: mid).reverse.head? = mid.reverse.head? := by
  rw [List.reverse_cons]
  exact head?_append_left _ _ (by simp [h])

/-- Evaluation of `get_payload` on a single well-formed header
`"Authorization: <scheme> <credential>"`: the configured scheme has no
whitespace and the credential does not end in whitespace, so
`str.strip()` is the identity and the split at the first space
separates scheme and credential; the result is then determined by
`credential.split(":")`. -/
theorem get_payload_of_wellformed (scheme cred : String)
    (hs1 : scheme ≠ "")
    (hs2 : ∀ c ∈ scheme.data, c.isWhitespace = false)
    (hlast : ∀ c, cred.data.reverse.head? = some c → c.isWhitespace = false)
    (hcne : cred ≠ "") :
    get_payload [("Authorization", scheme ++ " " ++ cred)] scheme =
      (match pySplitColon cred.data with
       | [t, tok] => some (some (String.mk t), some (String.mk tok))
       | _ => some (none, some (String.mk cred.data))) := by
  have hspace : (" " : String).data = [' '] := by decide
  have hdata : (scheme ++ " " ++ cred).data = scheme.data ++ ' ' :: cred.data := by
    rw [String.data_append, String.data_append, hspace]
    simp
  have hcd : cred.data ≠ [] := string_data_ne_nil cred hcne
  have hstrip : pyStrip (scheme.data ++ ' ' :: cred.data) = scheme.data ++ ' ' :: cred.data := by
    apply pyStrip_eq_self
    · intro c hc
      cases hsd : scheme.data with
      | nil => exact absurd hsd (string_data_ne_nil scheme hs1)
      | cons a as =>
          rw [hsd] at hc
          simp at hc
          subst hc
          exact hs2 a (by rw [hsd]; simp)
    · intro c hc
      rw [head_reverse_append scheme.data (' ' :: cred.data) (by simp)] at hc
      rw [reverse_head_cons ' ' cred.data hcd] at hc
      exact hlast c hc
  have hsplit : splitFirstSpace (scheme.data ++ ' ' :: cred.data) = some (scheme.data, cred.data) := by
    apply splitFirstSpace_append
    intro c hc hsp
    have := hs2 c hc
    rw [hsp] at this
    simp at this
  have hlk : List.lookup "Authorization" [("Authorization", scheme ++ " " ++ cred)] =
      some (scheme ++ " " ++ cred) := by simp [List.lookup]
  simp only [get_payload, hlk]
  rw [hdata, hstrip, hsplit]
  simp [string_mk_data]

/-- C5 counterexample: the claim predicts that the credential is split
at the first colon, so `"Bearer a:b:c"` should yield tenant `"a"` and
token `"b:c"`; the source instead executes `id.split(":")` whose
three-element result raises `ValueError`, leaving tenant `None` and the
whole credential as the token (token.py:61-64). -/
theorem get_payload_split_c5_cx :
    get_payload [("Authorization", "Bearer a:b:c")] "Bearer" =
      some (none, some "a:b:c") ∧
    get_payload [("Authorization", "Bearer a:b:c")] "Bearer" ≠
      some (some "a", some "b:c") := by
  constructor <;> decide

/-- C5 as amended: for a well-formed header `"<scheme> <credential>"`
with the configured scheme, the split applies only when the credential
contains exactly one colon: `t ++ ":" ++ tok` with colon-free `t` and
`tok` yields tenant `t` and token `tok` (in particular
`"Bearer acme:eyJ..."` yields tenant `acme` and token `eyJ...`), and a
credential with no colon yields tenant `None` with the whole credential
as the token; with two or more colons the `ValueError` branch likewise
yields tenant `None` and the whole credential as the token
(counterexample above). -/
theorem get_payload_colon_cases_c5 (scheme t tok cred : String)
    (hs1 : scheme ≠ "")
    (hs2 : ∀ c ∈ scheme.data, c.isWhitespace = false)
    (ht : ∀ c ∈ t.data, c ≠ ':')
    (htok : ∀ c ∈ tok.data, c ≠ ':' ∧ c.isWhitespace = false)
    (hcred : ∀ c ∈ cred.data, c ≠ ':' ∧ c.isWhitespace = false)
    (hcne : cred ≠ "") :
    get_payload [("Authorization", scheme ++ " " ++ (t ++ ":" ++ tok))] scheme =
      some (some t, some tok) ∧
    get_payload [("Authorization", scheme ++ " " ++ cred)] scheme =
      some (none, some cred) := by
  constructor
  · have hcolon : (":" : String).data = [':'] := by decide
    have hdata : (t ++ ":" ++ tok).data = t.data ++ ':' :: tok.data := by
      rw [String.data_append, String.data_append, hcolon]
      simp
    have hne : (t ++ ":" ++ tok) ≠ "" := by
      intro hcon
      have : (t ++ ":" ++ tok).data = [] := by rw [hcon]
      rw [hdata] at this
      simp at this
    have hlast : ∀ c, (t ++ ":" ++ tok).data.reverse.head? = some c →
        c.isWhitespace = false := by
      intro c hc
      rw [hdata, reverse_head_append_cons t.data ':' tok.data] at hc
      cases htd : tok.data with
      | nil =>
          rw [htd] at hc
          simp at hc
          subst hc
          decide
      | cons x xs =>
          rw [htd] at hc
          rw [reverse_head_cons ':' (x :: xs) (by simp)] at hc
          have hmem : c ∈ (x :: xs).reverse := head?_mem _ _ hc
          have hmem2 : c ∈ tok.data := by
            rw [htd]
            exact List.mem_reverse.mp hmem
          exact (htok c hmem2).2
    rw [get_payload_of_wellformed scheme (t ++ ":" ++ tok) hs1 hs2 hlast hne]
    rw [hdata, pySplitColon_append t.data tok.data ht,
        pySplitColon_no_colon tok.data (fun c hc => (htok c hc).1)]
  · have hlast : ∀ c, cred.data.reverse.head? = some c → c.isWhitespace = false := by
      intro c hc
      have hmem : c ∈ cred.data.reverse := head?_mem _ _ hc
      exact (hcred c (List.mem_reverse.mp hmem)).2
    rw [get_payload_of_wellformed scheme cred hs1 hs2 hlast hcne]
    rw [pySplitColon_no_colon cred.data (fun c hc => (hcred c hc).1)]

/-- Witness for the amended C5 on the spec's own examples:
`"Bearer acme:eyJ0"` splits into tenant `acme` and token `eyJ0`, and
`"Bearer eyJ0"` yields an undetermined tenant with the whole value as
token. -/
theorem get_payload_colon_cases_c5_witness :
    (("Bearer" : String) ≠ "" ∧ ("eyJ0" : String) ≠ "") ∧
    (get_payload [("Authorization", "Bearer" ++ " " ++ ("acme" ++ ":" ++ "eyJ0"))] "Bearer" =
      some (some "acme", some "eyJ0") ∧
     get_payload [("Authorization", "Bearer" ++ " " ++ "eyJ0")] "Bearer" =
      some (none, some "eyJ0")) :=
  ⟨⟨by decide, by decide⟩,
   get_payload_colon_cases_c5 "Bearer" "acme" "eyJ0" "eyJ0"
     (by decide) (by decide) (by decide) (by decide) (by decide) (by decide)⟩

/-! ### Section 10: inversion lemmas for the token backend -/


/-- What a successful key lookup guarantees: both payload attributes are
present and equal the row's, the row is enabled and not revoked, the
tenant is a concrete string contained in the row's programs, and the
store query with the row's own key data returns this row again. -/
theorem check_token_info_some (db : Option (List ApiKeyRecord))
    (tenant : Option String) (payload : Payload) (r : ApiKeyRecord)
    (h : check_token_info db tenant payload = some r) :
    pStr payload "name" = some r.name ∧
    pStr payload "partner" = some r.partner ∧
    r.enabled = true ∧ r.revoked = false ∧
    ∃ t rows, tenant = some t ∧ t ∈ r.programs ∧ db = some rows ∧
      rows.find? (keyPred r.name r.partner (some t)) = some r := by
  unfold check_token_info at h
  cases hn : pStr payload "name" with
  | none => rw [hn] at h; simp at h
  | some n =>
      rw [hn] at h
      cases hp : pStr payload "partner" with
      | none => rw [hp] at h; simp at h
      | some pa =>
          rw [hp] at h
          cases hdb : db with
          | none => rw [hdb] at h; simp at h
          | some rows =>
              rw [hdb] at h
              have hpred : keyPred n pa tenant r = true := List.find?_some h
              simp only [keyPred, Bool.and_eq_true, beq_iff_eq,
                Bool.not_eq_true'] at hpred
              obtain ⟨⟨⟨⟨hname, hpartner⟩, hen⟩, hrev⟩, htm⟩ := hpred
              subst hname
              subst hpartner
              cases tenant with
              | none => simp [tenantMatch] at htm
              | some t =>
                  refine ⟨rfl, rfl, hen, hrev, t, rows, rfl, ?_, rfl, h⟩
                  simpa [tenantMatch] using htm

/-- Inversion of a successful `TokenAuth.authenticate` run: the header
parsed into a concrete tenant and a nonempty token, the token decoded,
the key lookup succeeded, the session steps did not raise, and the
returned credential and user dictionary have the documented shape. -/
theorem authenticate_success_inv (env : TokenEnv)
    (headers : List (String × String)) (comp : String) (user : Payload)
    (r : ApiKeyRecord)
    (h : authenticate env headers = AuthResult.success comp user r) :
    ∃ t tk payload,
      get_payload headers env.scheme = some (some t, some tk) ∧
      tk ≠ "" ∧
      env.jwtDecode tk = Except.ok payload ∧
      check_token_info env.db (some t) payload = some r ∧
      env.sessionStepFails (mkUserdata env.session_key_property r) = false ∧
      user = mkUser r (some t) ∧
      comp = t ++ ":" ++ env.createJwt user := by
  unfold authenticate at h
  cases hgp : get_payload headers env.scheme with
  | none => rw [hgp] at h; simp at h
  | some pr =>
      obtain ⟨tenant, token⟩ := pr
      rw [hgp] at h
      cases token with
      | none => simp at h
      | some tk =>
          by_cases htk : tk = ""
          · simp [htk] at h
          · simp only [if_neg htk] at h
            cases hjd : env.jwtDecode tk with
            | error e => rw [hjd] at h; simp at h
            | ok payload =>
                rw [hjd] at h
                simp only [] at h
                cases hck : check_token_info env.db tenant payload with
                | none => rw [hck] at h; simp at h
                | some r0 =>
                    rw [hck] at h
                    by_cases hsf : env.sessionStepFails
                        (mkUserdata env.session_key_property r0) = true
                    · simp [hsf] at h
                    · rw [Bool.not_eq_true] at hsf
                      simp only [hsf, Bool.false_eq_true, if_false] at h
                      obtain ⟨hcomp, huser, hr⟩ :
                          pyStr tenant ++ ":" ++ env.createJwt (mkUser r0 tenant) = comp ∧
                          mkUser r0 tenant = user ∧ r0 = r := by
                        simpa using h
                      obtain ⟨_, _, _, _, t, rows, hten, _, _, _⟩ :=
                        check_token_info_some env.db tenant payload r0 hck
                      subst hr
                      subst hten
                      exact ⟨t, tk, payload, rfl, htk, hjd, hck, hsf,
                        huser.symm, by rw [← hcomp, huser]; rfl⟩
/-- A tenant/token pair returned by `get_payload` comes from the
exactly-two-pieces branch of `id.split(":")`, so neither piece contains
a colon. -/
theorem get_payload_pieces_colon_free (headers : List (String × String))
    (scheme t tok : String)
    (h : get_payload headers scheme = some (some t, some tok)) :
    (∀ c ∈ t.data, c ≠ ':') ∧ (∀ c ∈ tok.data, c ≠ ':') := by
  unfold get_payload at h
  cases hl : headers.lookup "Authorization" with
  | none => rw [hl] at h; simp at h
  | some v =>
      rw [hl] at h
      simp only [] at h
      cases hs : splitFirstSpace (pyStrip v.data) with
      | none => rw [hs] at h; simp at h
      | some pr =>
          obtain ⟨sch, cred⟩ := pr
          rw [hs] at h
          simp only [] at h
          by_cases heq : String.mk sch = scheme
          · rw [if_pos heq] at h
            cases hsp : pySplitColon cred with
            | nil => exact absurd hsp (pySplitColon_ne_nil cred)
            | cons p1 ps =>
                cases ps with
                | nil => rw [hsp] at h; simp at h
                | cons p2 ps2 =>
                    cases ps2 with
                    | nil =>
                        rw [hsp] at h
                        simp only [Option.some.injEq, Prod.mk.injEq] at h
                        obtain ⟨h1, h2⟩ := h
                        have ht : t.data = p1 := by rw [← h1]
                        have htok2 : tok.data = p2 := by rw [← h2]
                        constructor
                        · intro c hc
                          rw [ht] at hc
                          exact pySplitColon_pieces cred p1 (by rw [hsp]; simp) c hc
                        · intro c hc
                          rw [htok2] at hc
                          exact pySplitColon_pieces cred p2 (by rw [hsp]; simp) c hc
                    | cons p3 ps3 => rw [hsp] at h; simp at h
          · rw [if_neg heq] at h
            simp at h

/-! ### Section 11: token backend claims (C6, C7, C8, C10) -/

/-- Evaluation of `get_payload` on a header whose credential contains
exactly one colon: the credential splits into the tenant and the
token. -/
theorem get_payload_one_colon (scheme t tok : String)
    (hs1 : scheme ≠ "")
    (hs2 : ∀ c ∈ scheme.data, c.isWhitespace = false)
    (ht : ∀ c ∈ t.data, c ≠ ':')
    (htok1 : ∀ c ∈ tok.data, c ≠ ':')
    (htok2 : ∀ c ∈ tok.data, c.isWhitespace = false) :
    get_payload [("Authorization", scheme ++ " " ++ (t ++ ":" ++ tok))] scheme =
      some (some t, some tok) := by
  have hcolon : (":" : String).data = [':'] := by decide
  have hdata : (t ++ ":" ++ tok).data = t.data ++ ':' :: tok.data := by
    rw [String.data_append, String.data_append, hcolon]
    simp
  have hne : (t ++ ":" ++ tok) ≠ "" := by
    intro hcon
    have : (t ++ ":" ++ tok).data = [] := by rw [hcon]
    rw [hdata] at this
    simp at this
  have hlast : ∀ c, (t ++ ":" ++ tok).data.reverse.head? = some c →
      c.isWhitespace = false := by
    intro c hc
    rw [hdata, reverse_head_append_cons t.data ':' tok.data] at hc
    cases htd : tok.data with
    | nil =>
        rw [htd] at hc
        simp at hc
        subst hc
        decide
    | cons x xs =>
        rw [htd] at hc
        rw [reverse_head_cons ':' (x :: xs) (by simp)] at hc
        have hmem : c ∈ (x :: xs).reverse := head?_mem _ _ hc
        have hmem2 : c ∈ tok.data := by
          rw [htd]
          exact List.mem_reverse.mp hmem
        exact htok2 c hmem2
  rw [get_payload_of_wellformed scheme (t ++ ":" ++ tok) hs1 hs2 hlast hne]
  rw [hdata, pySplitColon_append t.data tok.data ht, pySplitColon_no_colon tok.data htok1]

/-- C6: every record authenticated by `TokenAuth.authenticate` satisfies
`enabled = true`, `revoked = false`, and the requested tenant is among
the record's programs; in particular a revoked record never
authenticates, even when enabled with a matching program. -/
theorem token_record_invariant_c6 (env : TokenEnv)
    (headers : List (String × String)) (tok : String) (user : Payload)
    (r : ApiKeyRecord)
    (h : authenticate env headers = AuthResult.success tok user r) :
    r.enabled = true ∧ r.revoked = false ∧
    ∃ t, requestTenant env headers = some t ∧ t ∈ r.programs := by
  obtain ⟨tA, tk, payload, hgp, _, hjd, hck, _, _, _⟩ :=
    authenticate_success_inv env headers tok user r h
  obtain ⟨_, _, hen, hrev, tB, rows, hten, hmem, _, _⟩ :=
    check_token_info_some env.db (some tA) payload r hck
  obtain rfl : tA = tB := Option.some.inj hten
  refine ⟨hen, hrev, tA, ?_, hmem⟩
  simp [requestTenant, hgp]

/-- C8: once a token is present and decodes, a payload missing `name`
or `partner`, a key lookup finding no row, and a query error all
produce the one same rejection `InvalidAuth(f"Invalid Session:
\x7btoken\x7d", status=401)` — the caller cannot tell these cases
apart. -/
theorem token_lookup_failures_c8 (env : TokenEnv)
    (headers : List (String × String)) (tenant : Option String)
    (tk : String) (payload : Payload)
    (hgp : get_payload headers env.scheme = some (tenant, some tk))
    (htk : tk ≠ "")
    (hjd : env.jwtDecode tk = Except.ok payload)
    (hfail : pStr payload "name" = none ∨ pStr payload "partner" = none ∨
      env.db = none ∨
      ∃ rows n pa, env.db = some rows ∧ pStr payload "name" = some n ∧
        pStr payload "partner" = some pa ∧
        rows.find? (keyPred n pa tenant) = none) :
    authenticate env headers = AuthResult.invalidSession tk 401 := by
  have hck : check_token_info env.db tenant payload = none := by
    unfold check_token_info
    cases hn : pStr payload "name" with
    | none => simp
    | some n =>
        cases hp : pStr payload "partner" with
        | none => simp
        | some pa =>
            cases hdb : env.db with
            | none => simp
            | some rows =>
                simp only []
                rcases hfail with h1 | h2 | h3 | ⟨rows2, n2, pa2, hdb2, hn2, hp2, hf⟩
                · rw [hn] at h1; exact absurd h1 (by simp)
                · rw [hp] at h2; exact absurd h2 (by simp)
                · rw [hdb] at h3; exact absurd h3 (by simp)
                · rw [hn] at hn2
                  rw [hp] at hp2
                  rw [hdb] at hdb2
                  obtain rfl : rows2 = rows := (Option.some.inj hdb2).symm
                  obtain rfl : n2 = n := (Option.some.inj hn2).symm
                  obtain rfl : pa2 = pa := (Option.some.inj hp2).symm
                  exact hf
  simp [authenticate, hgp, htk, hjd, hck]

/-- C10 (implicit): when the token decodes and the key lookup succeeds
but the identity-construction / session-persistence collaborator steps
(`create_user`, `create_jwt`, `remember`) raise, `authenticate` returns
the value `False` (token.py:141-143) rather than an Identity or a typed
rejection. -/
theorem token_session_step_false_c10 (env : TokenEnv)
    (headers : List (String × String)) (tenant : Option String)
    (tk : String) (payload : Payload) (r : ApiKeyRecord)
    (hgp : get_payload headers env.scheme = some (tenant, some tk))
    (htk : tk ≠ "")
    (hjd : env.jwtDecode tk = Except.ok payload)
    (hck : check_token_info env.db tenant payload = some r)
    (hsf : env.sessionStepFails (mkUserdata env.session_key_property r) = true) :
    authenticate env headers = AuthResult.falseResult := by
  simp [authenticate, hgp, htk, hjd, hck, hsf]

/-- C7: a composite credential returned by a successful `authenticate`
run, re-submitted as the `Authorization` credential under the same
scheme, authenticates successfully again, against the same key-lookup
record, yielding the same composite credential and user dictionary.
The JWT collaborator hypotheses say that decoding the freshly issued
token returns the embedded user dictionary and that the token string is
nonempty, colon-free and whitespace-free (true of real JWT strings,
whose alphabet is base64url plus dots). -/
theorem token_roundtrip_c7 (env : TokenEnv)
    (headers : List (String × String)) (comp : String) (user : Payload)
    (r : ApiKeyRecord)
    (hs1 : env.scheme ≠ "")
    (hs2 : ∀ c ∈ env.scheme.data, c.isWhitespace = false)
    (hjr : env.jwtDecode (env.createJwt user) = Except.ok user)
    (hj1 : env.createJwt user ≠ "")
    (hj2 : ∀ c ∈ (env.createJwt user).data, c ≠ ':' ∧ c.isWhitespace = false)
    (h : authenticate env headers = AuthResult.success comp user r) :
    authenticate env [("Authorization", env.scheme ++ " " ++ comp)] =
      AuthResult.success comp user r := by
  obtain ⟨t, tk, payload, hgp, htk, hjd, hck, hsf, huser, hcomp⟩ :=
    authenticate_success_inv env headers comp user r h
  obtain ⟨ht, _⟩ := get_payload_pieces_colon_free headers env.scheme t tk hgp
  obtain ⟨hn, hp, _, _, t2, rows, hten, hmem, hdb, hfind⟩ :=
    check_token_info_some env.db (some t) payload r hck
  obtain rfl : t = t2 := Option.some.inj hten
  subst huser
  subst hcomp
  have hgp2 : get_payload
      [("Authorization", env.scheme ++ " " ++ (t ++ ":" ++ env.createJwt (mkUser r (some t))))]
      env.scheme = some (some t, some (env.createJwt (mkUser r (some t)))) :=
    get_payload_one_colon env.scheme t (env.createJwt (mkUser r (some t)))
      hs1 hs2 ht (fun c hc => (hj2 c hc).1) (fun c hc => (hj2 c hc).2)
  have hname : pStr (mkUser r (some t)) "name" = some r.name := rfl
  have hpart : pStr (mkUser r (some t)) "partner" = some r.partner := rfl
  have hck2 : check_token_info env.db (some t) (mkUser r (some t)) = some r := by
    unfold check_token_info
    simp only [hname, hpart, hdb]
    exact hfind
  simp [authenticate, hgp2, hj1, hjr, hck2, hsf, pyStr]

/-! ### Section 12: concrete witness environment for the token backend -/

/-- A concrete enabled, unrevoked key row for tenant `tenant1`. -/
def r0 : ApiKeyRecord :=
  { name := "alice", partner := "acme", grants := ["read"],
    programs := ["tenant1"], enabled := true, revoked := false }

/-- A concrete decoded payload carrying `name` and `partner`. -/
def p0 : Payload := [("name", PVal.s "alice"), ("partner", PVal.s "acme")]

/-- The user dictionary `authenticate` builds from `r0` and `tenant1`. -/
def user0 : Payload := mkUser r0 (some "tenant1")

/-- Concrete token-backend environment: the credential `T1` decodes to
`p0`, the freshly issued session token is `T2` and decodes back to the
embedded user dictionary, the session steps succeed, and the store
holds exactly `r0`. -/
def env0 : TokenEnv :=
  { scheme := "Bearer",
    jwtDecode := fun s =>
      if s = "T1" then Except.ok p0
      else if s = "T2" then Except.ok user0
      else Except.error (JwtErr.badToken "invalid"),
    createJwt := fun p => if p = user0 then "T2" else "TX",
    sessionStepFails := fun _ => false,
    session_key_property := "user_id",
    db := some [r0] }

/-- A concrete request of the composite credential `tenant1:T1`. -/
def hdr0 : List (String × String) := [("Authorization", "Bearer tenant1:T1")]

/-- Witness for C6 at a concrete successful authentication. -/
theorem token_record_invariant_c6_witness :
    authenticate env0 hdr0 = AuthResult.success "tenant1:T2" user0 r0 ∧
    (r0.enabled = true ∧ r0.revoked = false ∧
     ∃ t, requestTenant env0 hdr0 = some t ∧ t ∈ r0.programs) :=
  ⟨by decide,
   token_record_invariant_c6 env0 hdr0 "tenant1:T2" user0 r0 (by decide)⟩

/-- Witness for C7: the concrete fresh credential `tenant1:T2`
re-submitted under the `Bearer` scheme authenticates again against
`r0`. -/
theorem token_roundtrip_c7_witness :
    (env0.scheme ≠ "" ∧ env0.createJwt user0 ≠ "" ∧
     env0.jwtDecode (env0.createJwt user0) = Except.ok user0 ∧
     authenticate env0 hdr0 = AuthResult.success "tenant1:T2" user0 r0) ∧
    authenticate env0 [("Authorization", env0.scheme ++ " " ++ "tenant1:T2")] =
      AuthResult.success "tenant1:T2" user0 r0 :=
  ⟨⟨by decide, by decide, rfl, by decide⟩,
   token_roundtrip_c7 env0 hdr0 "tenant1:T2" user0 r0 (by decide) (by decide)
     rfl (by decide) (by decide) (by decide)⟩

/-- Token-backend environment whose decoded payload lacks `partner`. -/
def env8 : TokenEnv :=
  { env0 with jwtDecode := fun s =>
      if s = "T1" then Except.ok [("name", PVal.s "alice")]
      else Except.error (JwtErr.badToken "invalid") }

/-- Witness for C8 at a concrete payload missing `partner`. -/
theorem token_lookup_failures_c8_witness :
    (get_payload hdr0 env8.scheme = some (some "tenant1", some "T1") ∧
     ("T1" : String) ≠ "" ∧
     env8.jwtDecode "T1" = Except.ok [("name", PVal.s "alice")] ∧
     pStr [("name", PVal.s "alice")] "partner" = none) ∧
    authenticate env8 hdr0 = AuthResult.invalidSession "T1" 401 :=
  ⟨⟨by decide, by decide, rfl, rfl⟩,
   token_lookup_failures_c8 env8 hdr0 (some "tenant1") "T1"
     [("name", PVal.s "alice")] (by decide) (by decide) rfl
     (Or.inr (Or.inl rfl))⟩

/-- Token-backend environment whose `create_user`/`remember` steps
raise. -/
def env10 : TokenEnv := { env0 with sessionStepFails := fun _ => true }

/-- Witness for C10 at a concrete failing session step. -/
theorem token_session_step_false_c10_witness :
    (get_payload hdr0 env10.scheme = some (some "tenant1", some "T1") ∧
     ("T1" : String) ≠ "" ∧
     env10.jwtDecode "T1" = Except.ok p0 ∧
     check_token_info env10.db (some "tenant1") p0 = some r0 ∧
     env10.sessionStepFails (mkUserdata env10.session_key_property r0) = true) ∧
    authenticate env10 hdr0 = AuthResult.falseResult :=
  ⟨⟨by decide, by decide, rfl, by decide, rfl⟩,
   token_session_step_false_c10 env10 hdr0 (some "tenant1") "T1" p0 r0
     (by decide) (by decide) rfl (by decide) rfl⟩
